import Mathlib

/-!
# Shallow embedding of the antiSnoreBack backend

This file embeds the request handlers and device/ML adapters of the
anti-snoring pillow backend (FastAPI + SQLAlchemy) as pure Lean functions and
proves properties of them.

Modelling conventions:
- Python floats are modelled as rationals (`ℚ`); the handlers only compare and
  average them, no float-specific behaviour is relevant.
- Database writes are modelled as the list of rows a handler appends during one
  request; server-assigned columns (row id, timestamp) are elided.
- The remote Raspberry Pi device is an external collaborator: each handler
  takes the outcome of its device call(s) as a parameter (`DeviceOutcome`), and
  reports which device operations it actually attempted (`DeviceCall` list).
- Randomness (numpy draws) is passed in as a parameter constrained, where a
  theorem needs it, by the support of the distribution the code samples.
- Raising an exception that escapes a handler is modelled by the HTTP status
  of the produced response (FastAPI turns `HTTPException` into that status).
-/

namespace AntiSnore

/-- HTTP status of the response a handler produces. -/
inductive HttpStatus
  | ok200
  | badRequest400
  | serverError500
deriving DecidableEq, Repr

/-- Outcome of one HTTP call to the Raspberry Pi device as seen by a handler:
either the call returned a 2xx payload, or `raspi_client` raised
(`httpx` error or non-2xx wrapped into `Exception` in raspi_client.py). -/
inductive DeviceOutcome
  | ok
  | raised (msg : String)
deriving DecidableEq, Repr

/-- A device operation attempted by a handler, i.e. which raspi_client method
was invoked (raspi_client.py): `pumpTrigger d` is `trigger_pump_sequence`
(POST /pump/trigger with a duration), `pumpSequence` is `trigger_full_sequence`
(POST /pump/sequence, the inflate-50s + deflate-30s sequence), `pillowLevel` is
`set_pillow_level` (POST /pillow/level). -/
inductive DeviceCall
  | pumpOn
  | pumpOff
  | pumpStatusQuery
  | pumpTrigger (duration : ℚ)
  | pumpSequence
  | pillowLevel (level : ℤ)
deriving DecidableEq, Repr

/-- Python `s.startswith(pre)`: prefix test on the character sequence. -/
def startswith (pre s : String) : Bool :=
  pre.toList.isPrefixOf s.toList

/-! ## Auto-detection registry (app/routers/auto_detect.py)

The module-level dictionary `auto_detection_state` (lines 19-24). Note that it
is a single process-wide record: it is not keyed by user id, it merely stores
the id of the user whose `start` call last took effect in its `user_id` field.
-/

/-- The module-level `auto_detection_state` dictionary. -/
structure AutoDetectionState where
  is_running : Bool
  user_id : Option String
  delay_minutes : ℤ
  stop_requested : Bool
deriving DecidableEq, Repr

/-- The initial value of `auto_detection_state` at process start
(auto_detect.py lines 19-24). -/
def initAutoDetectionState : AutoDetectionState :=
  { is_running := false, user_id := none, delay_minutes := 5, stop_requested := false }

/-- Response of the start/stop handlers: the `status` field of the returned
JSON ("success" or "error"), the reported `is_running`, and `delay_minutes`
when the response carries one (human-readable `message` strings elided). -/
structure AutoDetectResponse where
  status : String
  is_running : Bool
  delay_minutes : Option ℤ
deriving DecidableEq, Repr

/-- Response of the status handler (auto_detect.py lines 97-102). -/
structure AutoStatusResponse where
  status : String
  is_running : Bool
  delay_minutes : ℤ
  user_id : Option String
deriving DecidableEq, Repr

/-- `start_auto_detection` (auto_detect.py lines 27-62): given the query
parameter `delay_minutes` (default 5) and the authenticated user, reads and
writes the shared `auto_detection_state`. Returns the new state and the
response. -/
def start_auto_detection (delay_minutes : ℤ) (current_user : String)
    (st : AutoDetectionState) : AutoDetectionState × AutoDetectResponse :=
  if st.is_running then
    (st, { status := "error", is_running := true, delay_minutes := none })
  else
    ({ is_running := true, user_id := some current_user,
       delay_minutes := delay_minutes, stop_requested := false },
     { status := "success", is_running := true, delay_minutes := some delay_minutes })

/-- `stop_auto_detection` (auto_detect.py lines 65-89). -/
def stop_auto_detection (current_user : String) (st : AutoDetectionState) :
    AutoDetectionState × AutoDetectResponse :=
  if !st.is_running then
    (st, { status := "error", is_running := false, delay_minutes := none })
  else
    ({ st with stop_requested := true, is_running := false },
     { status := "success", is_running := false, delay_minutes := none })

/-- `get_auto_detection_status` (auto_detect.py lines 92-102): a pure read of
the shared state; the authenticated caller is not consulted. -/
def get_auto_detection_status (current_user : String) (st : AutoDetectionState) :
    AutoStatusResponse :=
  { status := "success", is_running := st.is_running,
    delay_minutes := st.delay_minutes, user_id := st.user_id }

/-! ## Detection adapter (app/ml_model.py) -/

/-- A preprocessed feature tensor (the 1 x 128 x 128 x 1 mel-spectrogram array),
abstracted to its numeric contents. -/
structure Features where
  data : List ℚ
deriving DecidableEq

/-- Outcome of decoding + feature extraction inside the `try` block of
`preprocess_audio` (ml_model.py lines 69-95): either the computed features, or
an exception (corrupt input, unsupported format, ...). -/
inductive DecodeOutcome
  | ok (features : Features)
  | raised (msg : String)
deriving DecidableEq

/-- Outcome of `self.model.predict` plus confidence extraction inside the
`try` block of `predict` (ml_model.py lines 120-128). -/
inductive InferOutcome
  | ok (confidence : ℚ)
  | raised (msg : String)
deriving DecidableEq

/-- `SnoringDetector.preprocess_audio` (ml_model.py lines 55-100).
`audio_libs_available` is the module flag AUDIO_LIBS_AVAILABLE;
`mock_features` is the `np.random.randn(1, 128, 128, 1)` draw used by the
fallback paths; `decode` is the outcome of the `try` block. Both the
missing-library path (line 67) and the `except` path (line 100) return the
random mock tensor; the function never propagates an exception. -/
def SnoringDetector.preprocess_audio (audio_libs_available : Bool)
    (mock_features : Features) (decode : DecodeOutcome) : Features :=
  if !audio_libs_available then
    mock_features
  else
    match decode with
    | .ok f => f
    | .raised _ => mock_features

/-- `SnoringDetector.predict` (ml_model.py lines 102-138). `is_mock` and
`model_loaded` reflect `self.is_mock` / `self.model is not None`;
`mock_confidence` is the `np.random.uniform(0.3, 0.95)` draw; `model` is the
TensorFlow inference on the preprocessed features. In the mock branch the
verdict is `confidence > 0.6`; in the real branch it is `confidence > 0.5`,
and an exception from inference yields the safe default `(False, 0.0)`. -/
def SnoringDetector.predict (is_mock : Bool) (model_loaded : Bool)
    (mock_confidence : ℚ) (audio_libs_available : Bool)
    (mock_features : Features) (decode : DecodeOutcome)
    (model : Features → InferOutcome) : Bool × ℚ :=
  if is_mock || !model_loaded then
    (decide ((0.6 : ℚ) < mock_confidence), mock_confidence)
  else
    let processed := SnoringDetector.preprocess_audio audio_libs_available mock_features decode
    match model processed with
    | .ok confidence => (decide ((0.5 : ℚ) < confidence), confidence)
    | .raised _ => (false, 0)

/-! ## Snore detection endpoint (app/routers/snore.py) -/

/-- A `snore_logs` row as written by the handlers (models.py): server-assigned
id and timestamp elided. -/
structure SnoreLog where
  user_id : String
  snore_detected : Bool
  confidence : ℚ
  audio_duration : Option ℚ
deriving DecidableEq, Repr

/-- The shape of the `message` string built in snore.py lines 68-74
(exact text elided, the branch taken is kept). -/
inductive DetectMessage
  | snoringDetectedPumpActivated
  | snoringDetectedOnly
  | noSnoring
deriving DecidableEq, Repr

/-- `SnoreDetectionResponse` (schemas.py lines 40-44). -/
structure SnoreDetectionResponse where
  snore_detected : Bool
  confidence : ℚ
  message : DetectMessage
  pump_triggered : Bool
deriving DecidableEq, Repr

/-- Everything one call of the detect handler produces: response status, the
snore_logs rows committed, the device calls attempted, and the response body
(none when an HTTPException escaped). -/
structure DetectResult where
  httpStatus : HttpStatus
  snore_logs : List SnoreLog
  device_calls : List DeviceCall
  response : Option SnoreDetectionResponse
deriving DecidableEq, Repr

/-- `detect_snoring` (snore.py lines 18-90). Parameters: the authenticated
user, the upload content type and byte length, the detector verdict
`(snore_detected, confidence)` returned by `detector.predict`, and the outcome
of the `raspi_client.trigger_pump_sequence()` call (attempted only on the
high-confidence branch; its default duration is 3.0 seconds, raspi_client.py
line 106). A content type not starting with "audio/" raises HTTPException 400
before any row is written; a pump failure is swallowed (lines 64-66) and the
request still succeeds with `pump_triggered = False`. -/
def detect_snoring (current_user : String) (content_type : String)
    (audio_len : ℕ) (verdict : Bool × ℚ) (pump : DeviceOutcome) : DetectResult :=
  if !startswith "audio/" content_type then
    { httpStatus := .badRequest400, snore_logs := [], device_calls := [], response := none }
  else
    let audio_duration : ℚ := (audio_len : ℚ) / (44100 * 2)
    let snore_detected := verdict.1
    let confidence := verdict.2
    let snore_log : SnoreLog :=
      { user_id := current_user, snore_detected := snore_detected,
        confidence := confidence, audio_duration := some audio_duration }
    let attempt := snore_detected && decide ((0.75 : ℚ) ≤ confidence)
    let pump_triggered := attempt && (match pump with | .ok => true | .raised _ => false)
    let message :=
      if snore_detected then
        if pump_triggered then DetectMessage.snoringDetectedPumpActivated
        else DetectMessage.snoringDetectedOnly
      else DetectMessage.noSnoring
    { httpStatus := .ok200,
      snore_logs := [snore_log],
      device_calls := if attempt then [DeviceCall.pumpTrigger 3] else [],
      response := some { snore_detected := snore_detected, confidence := confidence,
                         message := message, pump_triggered := pump_triggered } }

/-- Python `round(x, ndigits)` on the values the stats handler produces.
Python rounds half to even; this model rounds half away from zero upward,
which agrees everywhere except at exact midpoints (multiples of
`10 ^ (-ndigits) / 2`), which no theorem below evaluates at. -/
def pyRound (ndigits : ℕ) (x : ℚ) : ℚ :=
  (round (x * (10 : ℚ) ^ ndigits) : ℚ) / (10 : ℚ) ^ ndigits

/-- The JSON object returned by the stats handler (snore.py lines 134-140). -/
structure SnoreStats where
  total_detections : ℕ
  snoring_detected_count : ℕ
  no_snoring_count : ℤ
  average_confidence : ℚ
  snoring_percentage : ℚ
deriving DecidableEq, Repr

/-- `get_snore_stats` (snore.py lines 110-140), with the database table
modelled as the list of all `snore_logs` rows and each ORM query as the
corresponding filter. `avg_confidence` is the list of confidences of the
caller's detected-true rows; the average falls back to 0 on an empty list
(the `if avg_confidence else 0` truthiness test, line 132), and the
percentage falls back to 0 when the caller has no rows at all (line 139). -/
def get_snore_stats (current_user : String) (db : List SnoreLog) : SnoreStats :=
  let total_logs := (db.filter fun l => l.user_id == current_user).length
  let snoring_detected :=
    (db.filter fun l => l.user_id == current_user && l.snore_detected).length
  let avg_confidence :=
    (db.filter fun l => l.user_id == current_user && l.snore_detected).map
      fun l => l.confidence
  let avg_conf_value : ℚ :=
    if avg_confidence.isEmpty then 0 else avg_confidence.sum / avg_confidence.length
  { total_detections := total_logs,
    snoring_detected_count := snoring_detected,
    no_snoring_count := (total_logs : ℤ) - (snoring_detected : ℤ),
    average_confidence := pyRound 3 avg_conf_value,
    snoring_percentage :=
      if 0 < total_logs then pyRound 1 ((snoring_detected : ℚ) / (total_logs : ℚ) * 100)
      else 0 }

/-! ## Manual pump trigger endpoint (app/routers/pump.py) -/

/-- `PumpTriggerRequest` (schemas.py lines 60-61): the request body schema of
POST /pump/trigger. Its only declared field is `force`. -/
structure PumpTriggerRequest where
  force : Bool := false
deriving DecidableEq, Repr

/-- The attribute access `request.duration` performed by `trigger_pump`
(pump.py line 43). `PumpTriggerRequest` declares no `duration` field, so on a
pydantic model this lookup raises AttributeError for every request value. -/
def PumpTriggerRequest.duration (request : PumpTriggerRequest) : Except String ℚ :=
  .error "AttributeError: PumpTriggerRequest object has no attribute duration"

/-- A `pump_logs` row as written by the handlers (models.py): server-assigned
id and timestamp elided. -/
structure PumpLog where
  activated_by : String
  status : String
  error_message : Option String
deriving DecidableEq, Repr

/-- Everything one call of the manual trigger handler produces. `succeeded`
records whether the handler returned its success response (as opposed to
raising HTTPException 500). -/
structure PumpTriggerResult where
  httpStatus : HttpStatus
  pump_logs : List PumpLog
  device_calls : List DeviceCall
  succeeded : Bool
deriving DecidableEq, Repr

/-- `trigger_pump` (pump.py lines 23-79). Evaluating the call argument
`request.duration` happens before `trigger_pump_sequence` is invoked, so its
AttributeError lands in the `except` branch (lines 64-79): one failed
`PumpLog` row is written and HTTPException 500 is raised, without any device
call. The two device-outcome branches model the call as the handler is
written, had the attribute existed. -/
def trigger_pump (current_user : String) (request : PumpTriggerRequest)
    (device : ℚ → DeviceOutcome) : PumpTriggerResult :=
  match request.duration with
  | .error e =>
      { httpStatus := .serverError500,
        pump_logs := [{ activated_by := current_user, status := "failed",
                        error_message := some e }],
        device_calls := [], succeeded := false }
  | .ok d =>
      match device d with
      | .ok =>
          { httpStatus := .ok200,
            pump_logs := [{ activated_by := current_user, status := "success",
                            error_message := none }],
            device_calls := [DeviceCall.pumpTrigger d], succeeded := true }
      | .raised m =>
          { httpStatus := .serverError500,
            pump_logs := [{ activated_by := current_user, status := "failed",
                            error_message := some m }],
            device_calls := [DeviceCall.pumpTrigger d], succeeded := false }

/-! ## Pillow level endpoint (app/routers/pillow.py) -/

/-- Everything one call of the pillow-level handler produces. -/
structure PillowResult where
  httpStatus : HttpStatus
  device_calls : List DeviceCall
  level_set : Option ℤ
deriving DecidableEq, Repr

/-- `set_pillow_level` (pillow.py lines 21-61): the level is validated against
`[0, 1, 2, 3]` before `raspi_client.set_pillow_level` is called; an invalid
level raises HTTPException 400 with no device call, a device failure raises
HTTPException 500. -/
def set_pillow_level (current_user : String) (level : ℤ)
    (device : ℤ → DeviceOutcome) : PillowResult :=
  if level ∉ ([0, 1, 2, 3] : List ℤ) then
    { httpStatus := .badRequest400, device_calls := [], level_set := none }
  else
    match device level with
    | .ok =>
        { httpStatus := .ok200, device_calls := [DeviceCall.pillowLevel level],
          level_set := some level }
    | .raised _ =>
        { httpStatus := .serverError500, device_calls := [DeviceCall.pillowLevel level],
          level_set := none }

/-! ## Claim theorems -/

/-- C2 counterexample: the registry is not keyed by user. User "bob" has never
called start, yet after "alice" starts auto-detection with delay 7, the status
reported to "bob" is is_running = true with delay 7 (not false with the
default 5): one user's start call changes the status reported for another. -/
theorem c2_counterexample :
    (get_auto_detection_status "bob"
        (start_auto_detection 7 "alice" initAutoDetectionState).1).is_running = true
    ∧ (get_auto_detection_status "bob"
        (start_auto_detection 7 "alice" initAutoDetectionState).1).delay_minutes = 7 := by
  decide

/-- C2 (amended): the auto-detection registry is a single process-wide record,
not a per-user mapping. Before anyone has called start (the initial state),
status() reports is_running = false with the default delay 5 to every user;
and on any state whatsoever, the status reported does not depend on which
user asks. -/
theorem c2_status_shared_record (u v : String) (st : AutoDetectionState) :
    get_auto_detection_status u initAutoDetectionState =
      { status := "success", is_running := false, delay_minutes := 5, user_id := none }
    ∧ get_auto_detection_status u st = get_auto_detection_status v st :=
  ⟨rfl, rfl⟩

/-- C4 counterexample: starting while already Running is rejected, not
accepted. With auto-detection running with delay 10 (started by "alice"), a
start call with delay 3 by "bob" leaves the stored delay at 10 and returns a
response with status "error". -/
theorem c4_counterexample :
    ((start_auto_detection 3 "bob"
        (start_auto_detection 10 "alice" initAutoDetectionState).1).1.delay_minutes = 10)
    ∧ ((start_auto_detection 3 "bob"
        (start_auto_detection 10 "alice" initAutoDetectionState).1).2.status = "error") := by
  decide

/-- C4 (amended): start(delay) transitions Idle to Running(delay, caller);
a start while already Running is rejected with an "error" response and leaves
the whole state, the stored delay included, unchanged. -/
theorem c4_start_transition (delay : ℤ) (u : String) (st : AutoDetectionState) :
    (st.is_running = true →
      start_auto_detection delay u st =
        (st, { status := "error", is_running := true, delay_minutes := none }))
    ∧ (st.is_running = false →
      start_auto_detection delay u st =
        ({ is_running := true, user_id := some u, delay_minutes := delay,
           stop_requested := false },
         { status := "success", is_running := true, delay_minutes := some delay })) := by
  unfold start_auto_detection
  constructor <;> intro h <;> simp [h]

/-- Witness for `c4_start_transition` at concrete inputs: a second start while
running is rejected unchanged, and a start from the initial state records the
caller and delay. -/
theorem c4_start_transition_witness :
    start_auto_detection 3 "bob" (start_auto_detection 10 "alice" initAutoDetectionState).1 =
      ((start_auto_detection 10 "alice" initAutoDetectionState).1,
       { status := "error", is_running := true, delay_minutes := none })
    ∧ start_auto_detection 7 "alice" initAutoDetectionState =
      ({ is_running := true, user_id := some "alice", delay_minutes := 7,
         stop_requested := false },
       { status := "success", is_running := true, delay_minutes := some 7 }) :=
  ⟨(c4_start_transition 3 "bob"
      (start_auto_detection 10 "alice" initAutoDetectionState).1).1 (by decide),
   (c4_start_transition 7 "alice" initAutoDetectionState).2 (by decide)⟩

/-- C10: the start/stop/status handlers operate on one shared record. A stop
call by any user leaves the running flag false whatever the prior state (in
particular whoever started it); a start call that takes effect (from the
non-running state) stores exactly the calling user's id, overwriting the
previously stored one; and the status report is independent of the reader. -/
theorem c10_shared_state (u v : String) (delay : ℤ) (st : AutoDetectionState) :
    ((stop_auto_detection u st).1.is_running = false)
    ∧ (st.is_running = false → (start_auto_detection delay u st).1.user_id = some u)
    ∧ (get_auto_detection_status u st = get_auto_detection_status v st) := by
  refine ⟨?_, ?_, rfl⟩
  · unfold stop_auto_detection
    cases h : st.is_running <;> simp [h]
  · intro h
    unfold start_auto_detection
    simp [h]

/-- Witness for `c10_shared_state`: "bob" stops a session started by "alice"
and the flag goes false; a start by "bob" from the initial state records
"bob". -/
theorem c10_shared_state_witness :
    ((stop_auto_detection "bob"
        (start_auto_detection 10 "alice" initAutoDetectionState).1).1.is_running = false)
    ∧ ((start_auto_detection 4 "bob" initAutoDetectionState).1.user_id = some "bob") :=
  ⟨(c10_shared_state "bob" "carol" 4
      (start_auto_detection 10 "alice" initAutoDetectionState).1).1,
   (c10_shared_state "bob" "carol" 4 initAutoDetectionState).2.1 (by decide)⟩

/-- C3 (code-bug evaluation): a manual pump-trigger call with the declared
request body and a healthy device writes exactly one PumpLog row with status
"failed" and a non-null error message, attempts no device call at all, and
fails the request with HTTP 500: `request.duration` raises AttributeError
before the device is reached, so "failed" does not coincide with the device
call having raised. -/
theorem c3_trigger_pump_always_fails :
    (trigger_pump "alice" { force := false } fun _ => DeviceOutcome.ok).device_calls = []
    ∧ (trigger_pump "alice" { force := false } fun _ => DeviceOutcome.ok).pump_logs.length = 1
    ∧ ((trigger_pump "alice" { force := false } fun _ => DeviceOutcome.ok).pump_logs.map
        fun l => l.status) = ["failed"]
    ∧ ((trigger_pump "alice" { force := false } fun _ => DeviceOutcome.ok).pump_logs.all
        fun l => l.error_message.isSome) = true
    ∧ (trigger_pump "alice" { force := false } fun _ => DeviceOutcome.ok).httpStatus
        = HttpStatus.serverError500 := by
  decide

/-- C7: a pillow-level request with level in 0..3 is forwarded to the device
client (exactly one pillowLevel device call) and is not rejected as a client
error; any other integer level is rejected with HTTP 400 before any device
call is attempted. -/
theorem c7_pillow_level_validation (current_user : String) (level : ℤ)
    (device : ℤ → DeviceOutcome) :
    (level ∈ ([0, 1, 2, 3] : List ℤ) →
      (set_pillow_level current_user level device).device_calls = [DeviceCall.pillowLevel level]
      ∧ (set_pillow_level current_user level device).httpStatus ≠ HttpStatus.badRequest400)
    ∧ (level ∉ ([0, 1, 2, 3] : List ℤ) →
      (set_pillow_level current_user level device).httpStatus = HttpStatus.badRequest400
      ∧ (set_pillow_level current_user level device).device_calls = []) := by
  unfold set_pillow_level
  constructor
  · intro h
    rw [if_neg (not_not_intro h)]
    cases device level <;> simp
  · intro h
    rw [if_pos h]
    simp

/-- Witness for `c7_pillow_level_validation`: level 2 is forwarded, level 5 is
rejected without a device call. -/
theorem c7_pillow_level_validation_witness :
    ((set_pillow_level "alice" 2 fun _ => DeviceOutcome.ok).device_calls
        = [DeviceCall.pillowLevel 2]
      ∧ (set_pillow_level "alice" 2 fun _ => DeviceOutcome.ok).httpStatus
        ≠ HttpStatus.badRequest400)
    ∧ ((set_pillow_level "alice" 5 fun _ => DeviceOutcome.ok).httpStatus
        = HttpStatus.badRequest400
      ∧ (set_pillow_level "alice" 5 fun _ => DeviceOutcome.ok).device_calls = []) :=
  ⟨(c7_pillow_level_validation "alice" 2 fun _ => DeviceOutcome.ok).1 (by decide),
   (c7_pillow_level_validation "alice" 5 fun _ => DeviceOutcome.ok).2 (by decide)⟩

/-- C5: a detect call whose content type passes the audio check writes exactly
one SnoreLog row, whatever the verdict and whatever the pump attempt does; a
call rejected for a non-audio content type writes none and fails with HTTP
400. -/
theorem c5_exactly_one_snore_log (current_user content_type : String)
    (audio_len : ℕ) (verdict : Bool × ℚ) (pump : DeviceOutcome) :
    (startswith "audio/" content_type = true →
      (detect_snoring current_user content_type audio_len verdict pump).snore_logs.length = 1)
    ∧ (startswith "audio/" content_type = false →
      (detect_snoring current_user content_type audio_len verdict pump).snore_logs = []
      ∧ (detect_snoring current_user content_type audio_len verdict pump).httpStatus
        = HttpStatus.badRequest400) := by
  unfold detect_snoring
  constructor <;> intro h <;> simp [h]

/-- Witness for `c5_exactly_one_snore_log`: an audio upload writes one row even
when the pump attempt raises; a text upload writes none. -/
theorem c5_exactly_one_snore_log_witness :
    (detect_snoring "alice" "audio/wav" 88200 (true, 9/10)
        (DeviceOutcome.raised "down")).snore_logs.length = 1
    ∧ (detect_snoring "bob" "text/plain" 4 (false, 1/2) DeviceOutcome.ok).snore_logs = [] :=
  ⟨(c5_exactly_one_snore_log "alice" "audio/wav" 88200 (true, 9/10)
      (DeviceOutcome.raised "down")).1 (by decide),
   ((c5_exactly_one_snore_log "bob" "text/plain" 4 (false, 1/2)
      DeviceOutcome.ok).2 (by decide)).1⟩

/-- C1 counterexample: the detect handler does not attempt pumpFullSequence
(trigger_full_sequence, POST /pump/sequence). On an audio upload with verdict
(true, 0.9) — so detected with confidence at least 0.75 — the only device
call it attempts is trigger_pump_sequence with the default duration 3.0
(pumpTrigger, POST /pump/trigger); no pumpSequence call occurs. -/
theorem c1_counterexample :
    (detect_snoring "alice" "audio/wav" 88200 (true, 0.9)
        (DeviceOutcome.raised "down")).device_calls = [DeviceCall.pumpTrigger 3]
    ∧ DeviceCall.pumpSequence ∉
        (detect_snoring "alice" "audio/wav" 88200 (true, 0.9)
          (DeviceOutcome.raised "down")).device_calls
    ∧ (0.75 : ℚ) ≤ 0.9 := by
  have hct : startswith "audio/" "audio/wav" = true := by decide
  have h9 : decide ((0.75 : ℚ) ≤ 0.9) = true := decide_eq_true (by norm_num)
  refine ⟨?_, ?_, by norm_num⟩ <;> simp [detect_snoring, hct, h9]

/-- C1 (amended): on the audio path, after writing the SnoreLog the handler
attempts a pump actuation — trigger_pump_sequence with the default duration
3.0, not pumpFullSequence — exactly when the verdict is detected with
confidence at least 0.75; and when that attempt raises, the error is
swallowed: the request still returns HTTP 200 with pump_triggered = false and
the single SnoreLog row written. -/
theorem c1_pump_attempt_and_swallow (current_user content_type : String)
    (audio_len : ℕ) (snore_detected : Bool) (confidence : ℚ) (pump : DeviceOutcome)
    (hct : startswith "audio/" content_type = true) :
    ((detect_snoring current_user content_type audio_len (snore_detected, confidence)
        pump).device_calls
      = if snore_detected = true ∧ (0.75 : ℚ) ≤ confidence
        then [DeviceCall.pumpTrigger 3] else [])
    ∧ (∀ msg, pump = DeviceOutcome.raised msg →
        (detect_snoring current_user content_type audio_len (snore_detected, confidence)
            pump).httpStatus = HttpStatus.ok200
        ∧ ((detect_snoring current_user content_type audio_len (snore_detected, confidence)
            pump).response.map fun r => r.pump_triggered) = some false
        ∧ (detect_snoring current_user content_type audio_len (snore_detected, confidence)
            pump).snore_logs
          = [{ user_id := current_user, snore_detected := snore_detected,
               confidence := confidence,
               audio_duration := some ((audio_len : ℚ) / (44100 * 2)) }]) := by
  constructor
  · by_cases hc : (0.75 : ℚ) ≤ confidence
    · have hcd : decide ((0.75 : ℚ) ≤ confidence) = true := decide_eq_true hc
      cases snore_detected <;> simp [detect_snoring, hct, hcd, hc]
    · have hcd : decide ((0.75 : ℚ) ≤ confidence) = false := decide_eq_false hc
      cases snore_detected <;> simp [detect_snoring, hct, hcd, hc]
  · rintro msg rfl
    by_cases hc : (0.75 : ℚ) ≤ confidence
    · have hcd : decide ((0.75 : ℚ) ≤ confidence) = true := decide_eq_true hc
      cases snore_detected <;> simp [detect_snoring, hct, hcd]
    · have hcd : decide ((0.75 : ℚ) ≤ confidence) = false := decide_eq_false hc
      cases snore_detected <;> simp [detect_snoring, hct, hcd]

/-- Witness for `c1_pump_attempt_and_swallow`: an audio upload with verdict
(true, 0.8) and a raising pump still returns HTTP 200 with
pump_triggered = false. -/
theorem c1_pump_attempt_and_swallow_witness :
    (detect_snoring "alice" "audio/wav" 88200 (true, 0.8)
        (DeviceOutcome.raised "boom")).httpStatus = HttpStatus.ok200
    ∧ ((detect_snoring "alice" "audio/wav" 88200 (true, 0.8)
        (DeviceOutcome.raised "boom")).response.map fun r => r.pump_triggered)
      = some false := by
  have h := (c1_pump_attempt_and_swallow "alice" "audio/wav" 88200 true 0.8
    (DeviceOutcome.raised "boom") (by decide)).2 "boom" rfl
  exact ⟨h.1, h.2.1⟩

/-- C6: in the mock branch (mock detector or no loaded model), the returned
confidence equals the uniform draw from [0.3, 0.95), hence lies in the claimed
interval [0.3, 0.95], and the detected boolean is true exactly when the
confidence is strictly greater than 0.6. -/
theorem c6_mock_prediction (is_mock model_loaded : Bool) (mock_confidence : ℚ)
    (audio_libs_available : Bool) (mock_features : Features) (decode : DecodeOutcome)
    (model : Features → InferOutcome)
    (hmock : (is_mock || !model_loaded) = true)
    (hlo : (0.3 : ℚ) ≤ mock_confidence) (hhi : mock_confidence < 0.95) :
    ((0.3 : ℚ) ≤ (SnoringDetector.predict is_mock model_loaded mock_confidence
        audio_libs_available mock_features decode model).2
      ∧ (SnoringDetector.predict is_mock model_loaded mock_confidence
        audio_libs_available mock_features decode model).2 ≤ 0.95)
    ∧ ((SnoringDetector.predict is_mock model_loaded mock_confidence
        audio_libs_available mock_features decode model).1 = true
      ↔ (0.6 : ℚ) < (SnoringDetector.predict is_mock model_loaded mock_confidence
        audio_libs_available mock_features decode model).2) := by
  unfold SnoringDetector.predict
  rw [hmock]
  simp only [if_true, decide_eq_true_eq]
  exact ⟨⟨hlo, le_of_lt hhi⟩, trivial⟩

/-- Witness for `c6_mock_prediction` at the draw 0.7: confidence 0.7 is in the
interval and the verdict is true since 0.7 is greater than 0.6. -/
theorem c6_mock_prediction_witness :
    ((0.3 : ℚ) ≤ (SnoringDetector.predict true true (0.7 : ℚ) false ⟨[]⟩
        (DecodeOutcome.raised "unused") fun _ => InferOutcome.raised "unused").2
      ∧ (SnoringDetector.predict true true (0.7 : ℚ) false ⟨[]⟩
        (DecodeOutcome.raised "unused") fun _ => InferOutcome.raised "unused").2 ≤ 0.95)
    ∧ ((SnoringDetector.predict true true (0.7 : ℚ) false ⟨[]⟩
        (DecodeOutcome.raised "unused") fun _ => InferOutcome.raised "unused").1 = true
      ↔ (0.6 : ℚ) < (SnoringDetector.predict true true (0.7 : ℚ) false ⟨[]⟩
        (DecodeOutcome.raised "unused") fun _ => InferOutcome.raised "unused").2) :=
  c6_mock_prediction true true (0.7 : ℚ) false ⟨[]⟩ (DecodeOutcome.raised "unused")
    (fun _ => InferOutcome.raised "unused") rfl (by norm_num) (by norm_num)

/-- C9 counterexample: with the real model loaded and audio libraries present,
a corrupt input makes the decode step raise; `preprocess_audio` swallows that
error and substitutes random mock features, and the model then scores those
features — here 0.9 — so predict returns (true, 0.9), not the safe default
(false, 0.0). -/
theorem c9_counterexample :
    SnoringDetector.predict false true (1/2) true ⟨[0]⟩
        (DecodeOutcome.raised "corrupt input") (fun _ => InferOutcome.ok 0.9)
      = (true, 0.9) := by
  have h9 : decide ((0.5 : ℚ) < 0.9) = true := decide_eq_true (by norm_num)
  simp [SnoringDetector.predict, SnoringDetector.preprocess_audio, h9]

/-- C9 (amended): predict is a total function (never raises). With the real
model in use, a failure of the model-inference step yields the safe default
(false, 0.0); when inference returns a confidence — including on the random
features substituted after a preprocessing failure — the returned confidence
is that value, not the safe default. -/
theorem c9_predict_inference_failure (mock_confidence : ℚ) (audio_libs_available : Bool)
    (mock_features : Features) (decode : DecodeOutcome) (model : Features → InferOutcome) :
    (∀ msg,
      model (SnoringDetector.preprocess_audio audio_libs_available mock_features decode)
        = InferOutcome.raised msg →
      SnoringDetector.predict false true mock_confidence audio_libs_available
        mock_features decode model = (false, 0))
    ∧ (∀ confidence,
      model (SnoringDetector.preprocess_audio audio_libs_available mock_features decode)
        = InferOutcome.ok confidence →
      (SnoringDetector.predict false true mock_confidence audio_libs_available
        mock_features decode model).2 = confidence) := by
  constructor <;> intro x hx <;> simp [SnoringDetector.predict, hx]

/-- Witness for `c9_predict_inference_failure`: a raising inference gives the
safe default; a succeeding inference gives its confidence back. -/
theorem c9_predict_inference_failure_witness :
    SnoringDetector.predict false true (1/2) false ⟨[0]⟩ (DecodeOutcome.ok ⟨[1]⟩)
        (fun _ => InferOutcome.raised "inference failed") = (false, 0)
    ∧ (SnoringDetector.predict false true (1/2) false ⟨[0]⟩ (DecodeOutcome.ok ⟨[1]⟩)
        (fun _ => InferOutcome.ok (3/4))).2 = 3/4 :=
  ⟨(c9_predict_inference_failure (1/2) false ⟨[0]⟩ (DecodeOutcome.ok ⟨[1]⟩)
      (fun _ => InferOutcome.raised "inference failed")).1 "inference failed" rfl,
   (c9_predict_inference_failure (1/2) false ⟨[0]⟩ (DecodeOutcome.ok ⟨[1]⟩)
      (fun _ => InferOutcome.ok (3/4))).2 (3/4) rfl⟩

/-- C8: when the caller has no detected-true rows (in particular when they
have no rows at all), the stats handler returns average_confidence = 0 and
snoring_percentage = 0 instead of dividing by zero. -/
theorem c8_stats_zero_rows (current_user : String) (db : List SnoreLog)
    (h : db.filter (fun l => l.user_id == current_user && l.snore_detected) = []) :
    (get_snore_stats current_user db).average_confidence = 0
    ∧ (get_snore_stats current_user db).snoring_percentage = 0 := by
  unfold get_snore_stats
  rw [h]
  simp [pyRound]

/-- Witness for `c8_stats_zero_rows`: a user whose only row has
snore_detected = false gets average 0 and percentage 0. -/
theorem c8_stats_zero_rows_witness :
    (get_snore_stats "alice" [⟨"alice", false, 1/2, none⟩]).average_confidence = 0
    ∧ (get_snore_stats "alice" [⟨"alice", false, 1/2, none⟩]).snoring_percentage = 0 :=
  c8_stats_zero_rows "alice" [⟨"alice", false, 1/2, none⟩] (by decide)

end AntiSnore
